import Mathlib

/-
Verification of the wireguard-router packet-routing engine.

Shallow embedding of the Rust sources:
  src/utils.rs    (is_wg_packet; mac is an external keyed BLAKE2s, modelled as
                   an explicit function parameter `macF` throughout)
  src/router.rs   (frame classifier `TryFrom<(&[u8], usize)> for WireguardPacket`
                   and `Router::handle_packet`, `Router::run`'s reload step)
  src/lib.rs      (Peer and Peer::build)
  src/config.rs   (settings(): a OnceLock-cached config)
  src/error.rs    (Error)

Bytes are Nat (values < 256 on real inputs), buffers are List Nat, socket
addresses are opaque labels modelled as Nat.  Rust panics (out-of-bounds
indexing, slice range failures, unwrap on None/Err) are modelled as `none`
in an Option-valued result.
-/

namespace Wg

/-- Socket addresses are opaque labels: the router only stores and compares
them, so an abstract label domain is a faithful model. -/
abbrev SockAddr := Nat

/-- Model of `Peer` from src/lib.rs: a 32-byte public key, the precomputed
MAC1 key `BLAKE2s("mac1----" ++ pubkey)`, and a resolved endpoint. -/
structure Peer where
  pub_key : List Nat
  precomputed_hash_label_mac1 : List Nat
  address : SockAddr
deriving DecidableEq

/-- The bytes of the label "mac1----" (src/lib.rs `LABEL_MAC1`). -/
def LABEL_MAC1 : List Nat := [0x6d, 0x61, 0x63, 0x31, 0x2d, 0x2d, 0x2d, 0x2d]

/-- Model of `Peer::build` from src/lib.rs.  The external std/base64/blake2s
calls are parameters: `parse` models `str::parse::<SocketAddr>` as
Option-returning, `b64dec` models base64 STANDARD decode, `hashF` models
unkeyed BLAKE2s-256.  The Rust code calls `.unwrap()` on the parse result, on
the decode result and on the `try_into` to `[u8; 32]`; each unwrap on a
failure is a panic, modelled as `none`.  Note the result type: there is no
error channel at all (src/error.rs has no ConfigInvalid variant). -/
def Peer.build (parse : String → Option SockAddr) (b64dec : String → Option (List Nat))
    (hashF : List Nat → List Nat) (address : String) (pub_key : String) : Option Peer :=
  match parse address with
  | none => none
  | some a =>
    match b64dec pub_key with
    | none => none
    | some bytes =>
      if bytes.length = 32 then
        some { pub_key := bytes
               precomputed_hash_label_mac1 := hashF (LABEL_MAC1 ++ bytes)
               address := a }
      else none

/-- Model of `is_wg_packet` from src/utils.rs: `size > 4`, first byte in
1..=4, and the bitwise or of the three reserved bytes is zero.  Byte reads
are total via `getD`; the router only calls this with the full 70 KiB
receive buffer, so the reads are in bounds there. -/
def is_wg_packet (size : Nat) (packet : List Nat) : Bool :=
  decide (4 < size) && decide (0x01 ≤ packet.getD 0 0) && decide (packet.getD 0 0 ≤ 0x04)
    && decide ((packet.getD 1 0 ||| packet.getD 2 0 ||| packet.getD 3 0) = 0)

/-- Contiguous byte range `data[lo .. lo+len]` of a buffer. -/
def slice (data : List Nat) (lo len : Nat) : List Nat := (data.drop lo).take len

/-- Model of the `HandshakeInitiation` struct view (src/router.rs):
`ref_from_bytes` on a 148-byte slice, fields at their `repr(C)` offsets. -/
structure HandshakeInitiationP where
  msgType : Nat
  reserved : List Nat
  sender : List Nat
  ephemeral : List Nat
  staticField : List Nat
  timestamp : List Nat
  mac1 : List Nat
  mac2 : List Nat
deriving DecidableEq

/-- Field extraction for `HandshakeInitiation::ref_from_bytes` on a 148-byte
slice: offsets 0,1,4,8,40,88,116,132. -/
def HandshakeInitiationP.refFromBytes (b : List Nat) : HandshakeInitiationP :=
  { msgType := b.getD 0 0
    reserved := slice b 1 3
    sender := slice b 4 4
    ephemeral := slice b 8 32
    staticField := slice b 40 48
    timestamp := slice b 88 28
    mac1 := slice b 116 16
    mac2 := slice b 132 16 }

/-- Model of the `HandshakeResponse` struct view (src/router.rs). -/
structure HandshakeResponseP where
  msgType : Nat
  reserved : List Nat
  sender : List Nat
  receiver : List Nat
  ephemeral : List Nat
  empty : List Nat
  mac1 : List Nat
  mac2 : List Nat
deriving DecidableEq

/-- Field extraction for `HandshakeResponse::ref_from_bytes` on a 92-byte
slice: offsets 0,1,4,8,12,44,60,76. -/
def HandshakeResponseP.refFromBytes (b : List Nat) : HandshakeResponseP :=
  { msgType := b.getD 0 0
    reserved := slice b 1 3
    sender := slice b 4 4
    receiver := slice b 8 4
    ephemeral := slice b 12 32
    empty := slice b 44 16
    mac1 := slice b 60 16
    mac2 := slice b 76 16 }

/-- Model of the `CookieReply` struct view (src/router.rs). -/
structure CookieReplyP where
  msgType : Nat
  reserved : List Nat
  receiver : List Nat
  nonce : List Nat
  cookie : List Nat
deriving DecidableEq

/-- Field extraction for `CookieReply::ref_from_bytes` on a 64-byte slice:
offsets 0,1,4,8,32. -/
def CookieReplyP.refFromBytes (b : List Nat) : CookieReplyP :=
  { msgType := b.getD 0 0
    reserved := slice b 1 3
    receiver := slice b 4 4
    nonce := slice b 8 24
    cookie := slice b 32 32 }

/-- Model of the `TransportDataHeader` struct view (src/router.rs). -/
structure TransportDataHeaderP where
  msgType : Nat
  reserved : List Nat
  receiver : List Nat
  counter : List Nat
deriving DecidableEq

/-- Field extraction for `TransportDataHeader::ref_from_bytes` on a 16-byte
slice: offsets 0,1,4,8. -/
def TransportDataHeaderP.refFromBytes (b : List Nat) : TransportDataHeaderP :=
  { msgType := b.getD 0 0
    reserved := slice b 1 3
    receiver := slice b 4 4
    counter := slice b 8 8 }

/-- Model of src/error.rs `Error`.  Both variants exist in the source;
`packetTooShort` is declared there but never constructed anywhere. -/
inductive Error where
  | packetTooShort
  | invalidPacket
deriving DecidableEq

/-- Model of the `WireguardPacket` enum (src/router.rs): the typed zero-copy
view of a datagram.  The transport variant carries the header view, the
payload `data[16..size]` and the payload length `size - 16`, exactly as the
Rust tuple does. -/
inductive WireguardPacket where
  | handshakeInit : HandshakeInitiationP → WireguardPacket
  | handshakeResponse : HandshakeResponseP → WireguardPacket
  | cookieReply : CookieReplyP → WireguardPacket
  | transportData : TransportDataHeaderP × List Nat × Nat → WireguardPacket
deriving DecidableEq

/-- Largest usize value; the Rust pattern `32..usize::MAX` is the half-open
range 32 ≤ size < USIZE_MAX. -/
def USIZE_MAX : Nat := 2 ^ 64 - 1

/-- Model of `TryFrom<(&[u8], usize)> for WireguardPacket` (src/router.rs
lines 67-92).  The Rust code scrutinises `(data[0], size)` first: `data[0]`
on an empty slice is an out-of-bounds panic, modelled as `none`.  Each arm
takes a fixed-size subslice (`&data[..148]` etc.), which panics when the
buffer is shorter than the range, also modelled as `none`; `ref_from_bytes`
on a slice of exactly the struct size never fails for these unaligned
byte-only structs, so its `.unwrap()` is not a separate failure point.
The transport arm matches the half-open range `32..usize::MAX`. -/
def wireguardPacketTryFrom (data : List Nat) (size : Nat) :
    Option (Except Error WireguardPacket) :=
  match data[0]? with
  | none => none
  | some b0 =>
    if b0 = 0x01 ∧ size = 148 then
      if 148 ≤ data.length then
        some (Except.ok (WireguardPacket.handshakeInit
          (HandshakeInitiationP.refFromBytes (data.take 148))))
      else none
    else if b0 = 0x02 ∧ size = 92 then
      if 92 ≤ data.length then
        some (Except.ok (WireguardPacket.handshakeResponse
          (HandshakeResponseP.refFromBytes (data.take 92))))
      else none
    else if b0 = 0x03 ∧ size = 64 then
      if 64 ≤ data.length then
        some (Except.ok (WireguardPacket.cookieReply
          (CookieReplyP.refFromBytes (data.take 64))))
      else none
    else if b0 = 0x04 ∧ 32 ≤ size ∧ size < USIZE_MAX then
      if 16 ≤ data.length ∧ size ≤ data.length then
        some (Except.ok (WireguardPacket.transportData
          (TransportDataHeaderP.refFromBytes (data.take 16),
           slice data 16 (size - 16), size - 16)))
      else none
    else some (Except.error Error.invalidPacket)

/-- Session table: `HashMap<Identity, (SocketAddr, SocketAddr)>` modelled as
an association list from the 4 identity bytes to the `(From, To)` pair. -/
abbrev SessionTable := List (List Nat × (SockAddr × SockAddr))

/-- Model of `HashMap::get`: the value associated with `k`, if any. -/
def sessionsGet (t : SessionTable) (k : List Nat) : Option (SockAddr × SockAddr) :=
  match t.find? (fun e => e.1 == k) with
  | some e => some e.2
  | none => none

/-- Model of `HashMap::insert`: binds `k` to `v`, overwriting any prior
binding for `k`. -/
def sessionsInsert (t : SessionTable) (k : List Nat) (v : SockAddr × SockAddr) :
    SessionTable :=
  (k, v) :: t.filter (fun e => ¬ e.1 == k)

/-- One datagram written to the socket: the payload bytes and the
destination passed to `send_to`. -/
structure Datagram where
  payload : List Nat
  dest : SockAddr
deriving DecidableEq

/-- The debug-level drop logs emitted by `handle_packet`; TransportData with
an unknown session and the `is_wg_packet` pre-filter drop without logging. -/
inductive LogEvent where
  | dropUnknownBackend
  | dropResponseNoSession
  | dropCookieNoSession
  | dropInvalid
deriving DecidableEq

/-- Observable outcome of one `handle_packet` call: the session table after
the call, the datagrams sent (in order), and the debug logs emitted. -/
structure RouterOutput where
  sessions : SessionTable
  sent : List Datagram
  logs : List LogEvent
deriving DecidableEq

/-- Model of `Router::handle_packet` (src/router.rs lines 110-180) as a
function of the session-table state.  `macF` stands for `utils::mac`
(external keyed BLAKE2s-128), `peer` is the datagram's source address
argument (named as in the source), `peers` the current snapshot.  `send_to`
errors are swallowed in the source, so a send is recorded unconditionally.
`none` propagates a classifier panic. -/
def handle_packet (macF : List Nat → List Nat → List Nat) (sessions : SessionTable)
    (size : Nat) (peer : SockAddr) (data : List Nat) (peers : List Peer) :
    Option RouterOutput :=
  if is_wg_packet size data = true then
    match wireguardPacketTryFrom data size with
    | none => none
    | some (Except.error _) => some ⟨sessions, [], [LogEvent.dropInvalid]⟩
    | some (Except.ok (WireguardPacket.handshakeInit pkt)) =>
      match sessionsGet sessions pkt.sender with
      | some session => some ⟨sessions, [⟨data.take size, session.2⟩], []⟩
      | none =>
        match peers.find? (fun p =>
            macF p.precomputed_hash_label_mac1 (data.take 116) == pkt.mac1) with
        | some backend =>
          some ⟨sessionsInsert sessions pkt.sender (peer, backend.address),
                [⟨data.take size, backend.address⟩], []⟩
        | none => some ⟨sessions, [], [LogEvent.dropUnknownBackend]⟩
    | some (Except.ok (WireguardPacket.handshakeResponse pkt)) =>
      match sessionsGet sessions pkt.receiver with
      | some session =>
        some ⟨sessionsInsert sessions pkt.sender (peer, session.1),
              [⟨data.take size, session.1⟩], []⟩
      | none => some ⟨sessions, [], [LogEvent.dropResponseNoSession]⟩
    | some (Except.ok (WireguardPacket.cookieReply pkt)) =>
      match sessionsGet sessions pkt.receiver with
      | some session => some ⟨sessions, [⟨data.take size, session.1⟩], []⟩
      | none => some ⟨sessions, [], [LogEvent.dropCookieNoSession]⟩
    | some (Except.ok (WireguardPacket.transportData (header, _, _))) =>
      match sessionsGet sessions header.receiver with
      | some session => some ⟨sessions, [⟨data.take size, session.2⟩], []⟩
      | none => some ⟨sessions, [], []⟩
  else
    some ⟨sessions, [], []⟩

/-- Model of `config::settings()` (src/config.rs): a OnceLock holding the
config.  `get_or_init` loads from the file on disk only when the cell is
still empty; afterwards every read returns the cached value.  Returns the
peer list read and the cell state after the call.  `config::refresh`, which
would re-run the disk load, exists in the source but is never called. -/
def settingsPeers (disk : List Peer) (cell : Option (List Peer)) :
    List Peer × Option (List Peer) :=
  match cell with
  | some cfg => (cfg, some cfg)
  | none => (disk, some disk)

/-- The loop-local state of `Router::run`: the OnceLock cell and the peer
snapshot variable `peers`. -/
structure RouterLoopState where
  cell : Option (List Peer)
  peers : List Peer
deriving DecidableEq

/-- Startup of `Router::run` (src/router.rs line 189): first read of
`settings()`, with `disk` the peer list in the file at startup. -/
def routerStartup (disk : List Peer) : RouterLoopState :=
  { cell := (settingsPeers disk none).2, peers := (settingsPeers disk none).1 }

/-- The reload arm of `Router::run`'s select loop (src/router.rs lines
217-227): on a watcher event it re-reads `settings()`, with `disk` the peer
list in the file on disk at the time of the event. -/
def routerReloadStep (disk : List Peer) (st : RouterLoopState) : RouterLoopState :=
  { cell := (settingsPeers disk st.cell).2, peers := (settingsPeers disk st.cell).1 }

/-- True exactly on a classified handshake initiation. -/
def isHandshakeInitR : Except Error WireguardPacket → Bool
  | Except.ok (WireguardPacket.handshakeInit _) => true
  | _ => false

/-- True exactly on a classified handshake response. -/
def isHandshakeResponseR : Except Error WireguardPacket → Bool
  | Except.ok (WireguardPacket.handshakeResponse _) => true
  | _ => false

/-- True exactly on a classified cookie reply. -/
def isCookieReplyR : Except Error WireguardPacket → Bool
  | Except.ok (WireguardPacket.cookieReply _) => true
  | _ => false

/-- True exactly on a classified transport-data frame. -/
def isTransportDataR : Except Error WireguardPacket → Bool
  | Except.ok (WireguardPacket.transportData _) => true
  | _ => false

/-- Spec-side description of the HandshakeInitiation dispatch, written from
the claim: an existing session for the sender forwards to its backend
member; otherwise the first peer (in snapshot order) whose MAC over
`data[0..116]` equals the frame's MAC1 field at 116..132 wins, the entry
`sender -> (src, peer.address)` is inserted and the frame forwarded there;
with no match the frame is dropped with a debug log. -/
def initiationSpec (macF : List Nat → List Nat → List Nat) (sessions : SessionTable)
    (size : Nat) (src : SockAddr) (data : List Nat) (peers : List Peer) : RouterOutput :=
  match sessionsGet sessions (slice data 4 4) with
  | some e => ⟨sessions, [⟨data.take size, e.2⟩], []⟩
  | none =>
    match peers.find? (fun p =>
        macF p.precomputed_hash_label_mac1 (data.take 116) == slice data 116 16) with
    | some b =>
      ⟨sessionsInsert sessions (slice data 4 4) (src, b.address),
       [⟨data.take size, b.address⟩], []⟩
    | none => ⟨sessions, [], [LogEvent.dropUnknownBackend]⟩

/-- Spec-side description of the HandshakeResponse dispatch, written from
the claim: absent receiver session drops with a debug log; otherwise the
entry `sender -> (src, c0)` is inserted and the frame forwarded to `c0`,
the first member of the receiver's session. -/
def responseSpec (sessions : SessionTable) (size : Nat) (src : SockAddr)
    (data : List Nat) : RouterOutput :=
  match sessionsGet sessions (slice data 8 4) with
  | some c => ⟨sessionsInsert sessions (slice data 4 4) (src, c.1),
               [⟨data.take size, c.1⟩], []⟩
  | none => ⟨sessions, [], [LogEvent.dropResponseNoSession]⟩

/-- Spec-side description of the claim on session-table effects: only a
handshake initiation with fresh sender and a MAC1-matching peer, or a
handshake response whose receiver has a live session, change the table, and
each inserts exactly the one stated entry; every other datagram leaves the
table unchanged. -/
def sessionUpdateSpec (macF : List Nat → List Nat → List Nat) (sessions : SessionTable)
    (size : Nat) (src : SockAddr) (data : List Nat) (peers : List Peer) : SessionTable :=
  if is_wg_packet size data = true ∧ data[0]? = some 0x01 ∧ size = 148 ∧
      sessionsGet sessions (slice data 4 4) = none then
    match peers.find? (fun p =>
        macF p.precomputed_hash_label_mac1 (data.take 116) == slice data 116 16) with
    | some b => sessionsInsert sessions (slice data 4 4) (src, b.address)
    | none => sessions
  else if is_wg_packet size data = true ∧ data[0]? = some 0x02 ∧ size = 92 then
    match sessionsGet sessions (slice data 8 4) with
    | some c => sessionsInsert sessions (slice data 4 4) (src, c.1)
    | none => sessions
  else sessions

end Wg

namespace Wg

/-- Constant mac returning 16 zero bytes: matches no frame used here. -/
def macZero : List Nat → List Nat → List Nat := fun _ _ => List.replicate 16 0

/-- Constant mac returning 16 sevens: matches the MAC1 field of `cInitData`. -/
def macSeven : List Nat → List Nat → List Nat := fun _ _ => List.replicate 16 7

/-- A configured backend at address 7. -/
def peerB : Peer :=
  { pub_key := List.replicate 32 9
    precomputed_hash_label_mac1 := List.replicate 32 9
    address := 7 }

/-- A 148-byte handshake initiation, sender id bytes 170,187,204,221, MAC1
field (offsets 116..132) all sevens. -/
def cInitData : List Nat :=
  1 :: 0 :: 0 :: 0 :: 170 :: 187 :: 204 :: 221 ::
    (List.replicate 108 0 ++ (List.replicate 16 7 ++ List.replicate 16 0))

/-- A 92-byte handshake response, sender id 1,2,3,4, receiver id 9,9,9,9. -/
def cRespData : List Nat :=
  2 :: 0 :: 0 :: 0 :: 1 :: 2 :: 3 :: 4 :: 9 :: 9 :: 9 :: 9 :: List.replicate 80 0

/-- A 64-byte cookie reply with receiver id 1,2,3,4. -/
def cCookieData : List Nat :=
  3 :: 0 :: 0 :: 0 :: 1 :: 2 :: 3 :: 4 :: List.replicate 56 0

/-- A 32-byte transport-data frame with receiver id 1,2,3,4. -/
def cTransportData : List Nat :=
  4 :: 0 :: 0 :: 0 :: 1 :: 2 :: 3 :: 4 :: List.replicate 24 0

/-- An 8-byte junk datagram with opcode 0 (scenario S1 of the spec). -/
def cJunkData : List Nat := [0, 0, 0, 0, 0, 0, 0, 0]

/-- A buffer of usize::MAX bytes whose first byte is opcode 4. -/
def cBigData : List Nat := 4 :: List.replicate (USIZE_MAX - 1) 0

/-- A session table holding the initiation session 170,187,204,221. -/
def sTable1 : SessionTable := [([170, 187, 204, 221], (5, 30))]

/-- A session table holding the session 9,9,9,9 -> (client 10, backend 30). -/
def sTableR : SessionTable := [([9, 9, 9, 9], (10, 30))]

/-- The reverse entry installed by a response with sender 1,2,3,4 arriving
from source 20 against a session whose client endpoint is 10. -/
def sTablePinned : SessionTable := [([1, 2, 3, 4], (20, 10))]

/-- Address parser stub for an unparseable address. -/
def parseFail : String → Option SockAddr := fun _ => none

/-- Address parser stub resolving every input to address 1. -/
def parseOne : String → Option SockAddr := fun _ => some 1

/-- Base64 decoder stub for an undecodable key. -/
def b64Fail : String → Option (List Nat) := fun _ => none

/-- Base64 decoder stub decoding to 3 bytes (not 32). -/
def b64Short : String → Option (List Nat) := fun _ => some [0, 0, 0]

/-- Hash stub. -/
def hashId : List Nat → List Nat := fun bs => bs

/-- An input string whose address parse fails. -/
def badAddr : String := "not an address"

/-- A parseable address string. -/
def goodAddr : String := "10.0.0.1:51820"

/-- A key whose base64 decode fails. -/
def badKey : String := "%%%"

/-- A key decoding to fewer than 32 bytes. -/
def shortKey : String := "AAAA"

/-- Taking a byte range that lies inside the first `n` bytes commutes with
truncating the buffer to `n` bytes. -/
theorem slice_take (data : List Nat) (n lo len : Nat) (h : lo + len ≤ n) :
    slice (data.take n) lo len = slice data lo len := by
  unfold slice
  rw [List.drop_take, List.take_take]
  congr 1
  omega

/-- A buffer at least as long as a positive size has a first byte. -/
theorem length_pos_of_size (data : List Nat) (size : Nat) (hlen : size ≤ data.length)
    (hpos : 0 < size) : ∃ b0, data[0]? = some b0 := by
  have : 0 < data.length := lt_of_lt_of_le hpos hlen
  exact ⟨data.get ⟨0, this⟩, by simp [List.getElem?_eq_getElem this]⟩

/-- Classifier evaluation on the initiation arm. -/
theorem tryFrom_opcode1 (data : List Nat) (size : Nat) (h0 : data[0]? = some 0x01)
    (hs : size = 148) (hl : 148 ≤ data.length) :
    wireguardPacketTryFrom data size =
      some (Except.ok (WireguardPacket.handshakeInit
        (HandshakeInitiationP.refFromBytes (data.take 148)))) := by
  unfold wireguardPacketTryFrom
  rw [h0]
  simp [hs, hl]

/-- Classifier evaluation on the response arm. -/
theorem tryFrom_opcode2 (data : List Nat) (size : Nat) (h0 : data[0]? = some 0x02)
    (hs : size = 92) (hl : 92 ≤ data.length) :
    wireguardPacketTryFrom data size =
      some (Except.ok (WireguardPacket.handshakeResponse
        (HandshakeResponseP.refFromBytes (data.take 92)))) := by
  unfold wireguardPacketTryFrom
  rw [h0]
  simp [hs, hl]

/-- Classifier evaluation on the cookie-reply arm. -/
theorem tryFrom_opcode3 (data : List Nat) (size : Nat) (h0 : data[0]? = some 0x03)
    (hs : size = 64) (hl : 64 ≤ data.length) :
    wireguardPacketTryFrom data size =
      some (Except.ok (WireguardPacket.cookieReply
        (CookieReplyP.refFromBytes (data.take 64)))) := by
  unfold wireguardPacketTryFrom
  rw [h0]
  simp [hs, hl]

/-- Classifier evaluation on the transport-data arm. -/
theorem tryFrom_opcode4 (data : List Nat) (size : Nat) (h0 : data[0]? = some 0x04)
    (hs : 32 ≤ size) (hs2 : size < USIZE_MAX) (hl : size ≤ data.length) :
    wireguardPacketTryFrom data size =
      some (Except.ok (WireguardPacket.transportData
        (TransportDataHeaderP.refFromBytes (data.take 16),
         slice data 16 (size - 16), size - 16))) := by
  unfold wireguardPacketTryFrom
  rw [h0]
  have h16 : 16 ≤ data.length := le_trans (by omega) hl
  simp [hs, hs2, hl, h16]

/-- Classifier evaluation on the fall-through arm. -/
theorem tryFrom_invalid (data : List Nat) (size : Nat) (b0 : Nat) (h0 : data[0]? = some b0)
    (h1 : ¬ (b0 = 0x01 ∧ size = 148)) (h2 : ¬ (b0 = 0x02 ∧ size = 92))
    (h3 : ¬ (b0 = 0x03 ∧ size = 64)) (h4 : ¬ (b0 = 0x04 ∧ 32 ≤ size ∧ size < USIZE_MAX)) :
    wireguardPacketTryFrom data size = some (Except.error Error.invalidPacket) := by
  unfold wireguardPacketTryFrom
  rw [h0]
  simp [h1, h2, h3, h4]

/-- Looking up the key just inserted yields the inserted value. -/
theorem sessionsGet_insert_self (t : SessionTable) (k : List Nat) (v : SockAddr × SockAddr) :
    sessionsGet (sessionsInsert t k v) k = some v := by
  simp [sessionsGet, sessionsInsert, List.find?]

/-- A bitwise or of naturals is zero exactly when both operands are zero. -/
theorem natLorEqZero (x y : Nat) : x ||| y = 0 ↔ x = 0 ∧ y = 0 := by
  constructor
  · intro h
    constructor
    · apply Nat.eq_of_testBit_eq
      intro i
      have hb := congrArg (fun n => Nat.testBit n i) h
      simp [Nat.testBit_lor] at hb
      simp [hb.1]
    · apply Nat.eq_of_testBit_eq
      intro i
      have hb := congrArg (fun n => Nat.testBit n i) h
      simp [Nat.testBit_lor] at hb
      simp [hb.2]
  · rintro ⟨rfl, rfl⟩
    rfl

/-- On a well-formed HandshakeResponse frame, `handle_packet` realises
`responseSpec`: shared by the response-routing and reverse-route results. -/
theorem responseRoutingAux (macF : List Nat → List Nat → List Nat)
    (sessions : SessionTable) (size : Nat) (src : SockAddr) (data : List Nat)
    (peers : List Peer)
    (hsize : size = 92) (hlen : size ≤ data.length)
    (h0 : data[0]? = some 0x02) (hwg : is_wg_packet size data = true) :
    handle_packet macF sessions size src data peers =
      some (responseSpec sessions size src data) := by
  subst hsize
  have htf := tryFrom_opcode2 data 92 h0 rfl hlen
  have hsnd : (HandshakeResponseP.refFromBytes (data.take 92)).sender = slice data 4 4 := by
    simp [HandshakeResponseP.refFromBytes, slice_take data 92 4 4 (by omega)]
  have hrcv : (HandshakeResponseP.refFromBytes (data.take 92)).receiver = slice data 8 4 := by
    simp [HandshakeResponseP.refFromBytes, slice_take data 92 8 4 (by omega)]
  unfold handle_packet responseSpec
  rw [htf]
  simp only [hwg, if_true, hsnd, hrcv]
  cases sessionsGet sessions (slice data 8 4) with
  | some c => rfl
  | none => rfl

end Wg

namespace Wg

/-- C1: a HandshakeInitiation frame (opcode 0x01, size 148) from source
`src` with sender identity `s` (bytes 4..8): if the session table has an
entry for `s` the payload is forwarded unchanged to that entry's backend
member with no MAC1 computation (the outcome does not depend on the mac
function or on the peer snapshot); otherwise the first peer in snapshot
iteration order whose `mac(peer.precomputed_hash_label_mac1, buf[0..116])`
equals the MAC1 field at 116..132 wins: `s -> (src, peer.address)` is
inserted and the payload forwarded to `peer.address`; with no matching peer
the frame is dropped with a debug log and the table is unchanged, all as
described by `initiationSpec`. -/
theorem c1_initiation_routing (macF macG : List Nat → List Nat → List Nat)
    (sessions : SessionTable) (size : Nat) (src : SockAddr) (data : List Nat)
    (peers peersG : List Peer)
    (hsize : size = 148) (hlen : size ≤ data.length)
    (h0 : data[0]? = some 0x01) (hwg : is_wg_packet size data = true) :
    handle_packet macF sessions size src data peers =
      some (initiationSpec macF sessions size src data peers) ∧
    ((sessionsGet sessions (slice data 4 4)).isSome = true →
      handle_packet macG sessions size src data peersG =
        handle_packet macF sessions size src data peers) := by
  subst hsize
  have htf := tryFrom_opcode1 data 148 h0 rfl hlen
  have hsnd : (HandshakeInitiationP.refFromBytes (data.take 148)).sender = slice data 4 4 := by
    simp [HandshakeInitiationP.refFromBytes, slice_take data 148 4 4 (by omega)]
  have hmac : (HandshakeInitiationP.refFromBytes (data.take 148)).mac1 = slice data 116 16 := by
    simp [HandshakeInitiationP.refFromBytes, slice_take data 148 116 16 (by omega)]
  constructor
  · unfold handle_packet initiationSpec
    rw [htf]
    simp only [hwg, if_true, hsnd, hmac]
    cases sessionsGet sessions (slice data 4 4) with
    | some e => rfl
    | none =>
      cases peers.find? (fun p =>
          macF p.precomputed_hash_label_mac1 (data.take 116) == slice data 116 16) with
      | some b => rfl
      | none => rfl
  · intro hsome
    obtain ⟨e, hget⟩ := Option.isSome_iff_exists.mp hsome
    unfold handle_packet
    rw [htf]
    simp only [hwg, if_true, hsnd, hget]

set_option maxRecDepth 10000 in
/-- C1 witness: a retransmitted initiation for the live session of `sTable1`
is forwarded to the stored backend 30, and the outcome is unchanged when the
mac function and the peer snapshot are replaced. -/
theorem c1_witness :
    handle_packet macSeven sTable1 148 5 cInitData [peerB] =
      some (initiationSpec macSeven sTable1 148 5 cInitData [peerB]) ∧
    handle_packet macZero sTable1 148 5 cInitData [] =
      handle_packet macSeven sTable1 148 5 cInitData [peerB] := by
  obtain ⟨h1, h2⟩ := c1_initiation_routing macSeven macZero sTable1 148 5 cInitData
    [peerB] [] rfl (by decide) (by decide) (by decide)
  exact ⟨h1, h2 (by decide)⟩

set_option maxRecDepth 10000 in
/-- C2: the reload arm of `Router::run` does not reload from disk.
`settings()` returns the OnceLock cache filled at startup, and
`config::refresh` is never called, so a reload event leaves the snapshot at
the startup peer list: starting with only `peerB` on disk, after an event
delivered when the file holds no peers the snapshot still equals `[peerB]`,
and a fresh initiation whose MAC1 matches `peerB` is still forwarded to it,
while against the actual on-disk peer list (empty) it would be dropped with
a debug log. -/
theorem c2_reload_ignores_disk :
    routerReloadStep [] (routerStartup [peerB]) =
      { cell := some [peerB], peers := [peerB] } ∧
    handle_packet macSeven [] 148 5 cInitData
        (routerReloadStep [] (routerStartup [peerB])).peers =
      some ⟨[([170, 187, 204, 221], (5, 7))], [⟨cInitData.take 148, 7⟩], []⟩ ∧
    handle_packet macSeven [] 148 5 cInitData [] =
      some ⟨[], [], [LogEvent.dropUnknownBackend]⟩ := by
  refine ⟨rfl, by decide, by decide⟩

/-- C3 counterexample: with session `9,9,9,9 -> (10, 30)`, a response from
source 20 with sender `1,2,3,4` installs `1,2,3,4 -> (20, 10)`; the
subsequent CookieReply bearing receiver `1,2,3,4` is then forwarded to 20
(the response's source, the first member of the pair) and not to the
original client 10 as the claim states. -/
theorem c3_counterexample_cookie_destination :
    handle_packet macZero sTableR 92 20 cRespData [] =
      some ⟨[([1, 2, 3, 4], (20, 10)), ([9, 9, 9, 9], (10, 30))],
            [⟨cRespData.take 92, 10⟩], []⟩ ∧
    handle_packet macZero [([1, 2, 3, 4], (20, 10)), ([9, 9, 9, 9], (10, 30))] 64 30
        cCookieData [] =
      some ⟨[([1, 2, 3, 4], (20, 10)), ([9, 9, 9, 9], (10, 30))],
            [⟨cCookieData.take 64, 20⟩], []⟩ ∧
    (20 : SockAddr) ≠ 10 := by
  refine ⟨by decide, by decide, by decide⟩

/-- C3 (amended): a HandshakeResponse with sender `s` (bytes 4..8) and
receiver `r` (bytes 8..12) processed while `r` maps to `(c0, _)` installs
`s -> (src, c0)` and forwards to `c0`; while an entry `s -> (src, c0)`
stands, a TransportData frame with receiver `s` is forwarded to `c0` (the
second member) and a CookieReply frame with receiver `s` is forwarded to
`src`, the first member of the entry — the response's source — not to `c0`. -/
theorem c3_response_reverse_route (macF macG macH : List Nat → List Nat → List Nat)
    (sessions sessions2 sessions3 : SessionTable) (size size2 size3 : Nat)
    (src src2 src3 : SockAddr) (data data2 data3 : List Nat)
    (peers peers2 peers3 : List Peer) (c0 b0 : SockAddr)
    (hsize : size = 92) (hlen : size ≤ data.length) (h0 : data[0]? = some 0x02)
    (hwg : is_wg_packet size data = true)
    (hr : sessionsGet sessions (slice data 8 4) = some (c0, b0)) :
    handle_packet macF sessions size src data peers =
      some ⟨sessionsInsert sessions (slice data 4 4) (src, c0),
            [⟨data.take size, c0⟩], []⟩ ∧
    sessionsGet (sessionsInsert sessions (slice data 4 4) (src, c0)) (slice data 4 4) =
      some (src, c0) ∧
    (data2[0]? = some 0x04 → 32 ≤ size2 → size2 < USIZE_MAX → size2 ≤ data2.length →
      is_wg_packet size2 data2 = true →
      sessionsGet sessions2 (slice data2 4 4) = some (src, c0) →
      handle_packet macG sessions2 size2 src2 data2 peers2 =
        some ⟨sessions2, [⟨data2.take size2, c0⟩], []⟩) ∧
    (data3[0]? = some 0x03 → size3 = 64 → size3 ≤ data3.length →
      is_wg_packet size3 data3 = true →
      sessionsGet sessions3 (slice data3 4 4) = some (src, c0) →
      handle_packet macH sessions3 size3 src3 data3 peers3 =
        some ⟨sessions3, [⟨data3.take size3, src⟩], []⟩) := by
  refine ⟨?_, ?_, ?_, ?_⟩
  · have hmain := responseRoutingAux macF sessions size src data peers hsize hlen h0 hwg
    rw [hmain]
    unfold responseSpec
    rw [hr]
  · exact sessionsGet_insert_self sessions (slice data 4 4) (src, c0)
  · intro h4 hs32 hsM hl2 hwg2 hget2
    have htf := tryFrom_opcode4 data2 size2 h4 hs32 hsM hl2
    have hrcv : (TransportDataHeaderP.refFromBytes (data2.take 16)).receiver =
        slice data2 4 4 := by
      simp [TransportDataHeaderP.refFromBytes, slice_take data2 16 4 4 (by omega)]
    unfold handle_packet
    rw [htf]
    simp only [hwg2, if_true, hrcv, hget2]
  · intro h3 hs64 hl3 hwg3 hget3
    subst hs64
    have htf := tryFrom_opcode3 data3 64 h3 rfl hl3
    have hrcv : (CookieReplyP.refFromBytes (data3.take 64)).receiver =
        slice data3 4 4 := by
      simp [CookieReplyP.refFromBytes, slice_take data3 64 4 4 (by omega)]
    unfold handle_packet
    rw [htf]
    simp only [hwg3, if_true, hrcv, hget3]

/-- C3 witness: the response of `cRespData` against `sTableR` installs the
reverse entry and forwards to client 10; in the pinned state a transport
frame with receiver `1,2,3,4` reaches 10 and a cookie reply with the same
receiver reaches 20. -/
theorem c3_witness :
    handle_packet macZero sTableR 92 20 cRespData [] =
      some ⟨sessionsInsert sTableR (slice cRespData 4 4) (20, 10),
            [⟨cRespData.take 92, 10⟩], []⟩ ∧
    sessionsGet (sessionsInsert sTableR (slice cRespData 4 4) (20, 10))
      (slice cRespData 4 4) = some (20, 10) ∧
    handle_packet macZero sTablePinned 32 99 cTransportData [] =
      some ⟨sTablePinned, [⟨cTransportData.take 32, 10⟩], []⟩ ∧
    handle_packet macZero sTablePinned 64 30 cCookieData [] =
      some ⟨sTablePinned, [⟨cCookieData.take 64, 20⟩], []⟩ := by
  obtain ⟨h1, h2, h3, h4⟩ := c3_response_reverse_route macZero macZero macZero
    sTableR sTablePinned sTablePinned 92 32 64 20 99 30 cRespData cTransportData
    cCookieData [] [] [] 10 30 rfl (by decide) (by decide) (by decide) (by decide)
  exact ⟨h1, h2,
    h3 (by decide) (by decide) (by norm_num [USIZE_MAX]) (by decide) (by decide) (by decide),
    h4 (by decide) rfl (by decide) (by decide) (by decide)⟩

/-- C4: a HandshakeResponse frame (opcode 0x02, size 92) from source `src`
with sender `s` and receiver `r`: if the table has no entry for `r` the
frame is dropped with a debug log and the table unchanged; if `r` maps to
`(c0, _)` the entry `s -> (src, c0)` is inserted and the unchanged payload
forwarded to `c0`, as described by `responseSpec`. -/
theorem c4_response_routing (macF : List Nat → List Nat → List Nat)
    (sessions : SessionTable) (size : Nat) (src : SockAddr) (data : List Nat)
    (peers : List Peer)
    (hsize : size = 92) (hlen : size ≤ data.length)
    (h0 : data[0]? = some 0x02) (hwg : is_wg_packet size data = true) :
    handle_packet macF sessions size src data peers =
      some (responseSpec sessions size src data) :=
  responseRoutingAux macF sessions size src data peers hsize hlen h0 hwg

/-- C4 witness: the concrete response of `cRespData` against `sTableR`. -/
theorem c4_witness :
    handle_packet macZero sTableR 92 20 cRespData [] =
      some (responseSpec sTableR 92 20 cRespData) :=
  c4_response_routing macZero sTableR 92 20 cRespData [] rfl (by decide) (by decide)
    (by decide)

end Wg

namespace Wg

set_option maxRecDepth 10000 in
/-- C5 counterexample: at size usize::MAX with opcode 0x04 and a buffer of
that length, the claim requires TransportData (size ≥ 32), but the code's
half-open range pattern `32..usize::MAX` excludes usize::MAX and the
classifier returns InvalidPacket. -/
theorem c5_counterexample_transport_upper_bound :
    cBigData[0]? = some 0x04 ∧ 32 ≤ USIZE_MAX ∧ USIZE_MAX ≤ cBigData.length ∧
    wireguardPacketTryFrom cBigData USIZE_MAX = some (Except.error Error.invalidPacket) := by
  have hhead : cBigData[0]? = some 0x04 := by
    unfold cBigData
    exact List.getElem?_cons_zero
  refine ⟨hhead, by norm_num [USIZE_MAX], ?_, ?_⟩
  · unfold cBigData
    rw [List.length_cons, List.length_replicate]
    norm_num [USIZE_MAX]
  · exact tryFrom_invalid cBigData USIZE_MAX 4 hhead (by norm_num [USIZE_MAX])
      (by norm_num [USIZE_MAX]) (by norm_num [USIZE_MAX]) (by norm_num [USIZE_MAX])

/-- C5 (amended): on a nonempty buffer with `size ≤ data.length`, the
classifier never panics and returns HandshakeInitiation iff opcode 0x01 and
size 148, HandshakeResponse iff 0x02 and 92, CookieReply iff 0x03 and 64,
TransportData iff 0x04 and 32 ≤ size < usize::MAX, and the InvalidPacket
error in exactly the remaining cases (nonemptiness is needed because the
classifier reads `data[0]` unconditionally, and the transport upper bound
is strict because the range pattern excludes usize::MAX). -/
theorem c5_classifier_shape (data : List Nat) (size : Nat)
    (hlen : size ≤ data.length) (hne : data ≠ []) :
    (wireguardPacketTryFrom data size).isSome = true ∧
    (Option.map isHandshakeInitR (wireguardPacketTryFrom data size) = some true ↔
      (data[0]? = some 0x01 ∧ size = 148)) ∧
    (Option.map isHandshakeResponseR (wireguardPacketTryFrom data size) = some true ↔
      (data[0]? = some 0x02 ∧ size = 92)) ∧
    (Option.map isCookieReplyR (wireguardPacketTryFrom data size) = some true ↔
      (data[0]? = some 0x03 ∧ size = 64)) ∧
    (Option.map isTransportDataR (wireguardPacketTryFrom data size) = some true ↔
      (data[0]? = some 0x04 ∧ 32 ≤ size ∧ size < USIZE_MAX)) ∧
    (wireguardPacketTryFrom data size = some (Except.error Error.invalidPacket) ↔
      ¬ ((data[0]? = some 0x01 ∧ size = 148) ∨ (data[0]? = some 0x02 ∧ size = 92) ∨
         (data[0]? = some 0x03 ∧ size = 64) ∨
         (data[0]? = some 0x04 ∧ 32 ≤ size ∧ size < USIZE_MAX))) := by
  have hpos : 0 < data.length := List.length_pos.mpr hne
  obtain ⟨b0, h0⟩ : ∃ b0, data[0]? = some b0 :=
    ⟨data.get ⟨0, hpos⟩, by simp [List.getElem?_eq_getElem hpos]⟩
  by_cases hc1 : b0 = 0x01 ∧ size = 148
  · obtain ⟨hb, hs⟩ := hc1
    subst hb
    subst hs
    rw [tryFrom_opcode1 data 148 h0 rfl hlen]
    simp [isHandshakeInitR, isHandshakeResponseR, isCookieReplyR, isTransportDataR, h0]
  · by_cases hc2 : b0 = 0x02 ∧ size = 92
    · obtain ⟨hb, hs⟩ := hc2
      subst hb
      subst hs
      rw [tryFrom_opcode2 data 92 h0 rfl hlen]
      simp [isHandshakeInitR, isHandshakeResponseR, isCookieReplyR, isTransportDataR, h0]
    · by_cases hc3 : b0 = 0x03 ∧ size = 64
      · obtain ⟨hb, hs⟩ := hc3
        subst hb
        subst hs
        rw [tryFrom_opcode3 data 64 h0 rfl hlen]
        simp [isHandshakeInitR, isHandshakeResponseR, isCookieReplyR, isTransportDataR, h0]
      · by_cases hc4 : b0 = 0x04 ∧ 32 ≤ size ∧ size < USIZE_MAX
        · obtain ⟨hb, hs1, hs2⟩ := hc4
          subst hb
          rw [tryFrom_opcode4 data size h0 hs1 hs2 hlen]
          simp [isHandshakeInitR, isHandshakeResponseR, isCookieReplyR, isTransportDataR,
            h0, hs1, hs2]
        · rw [tryFrom_invalid data size b0 h0 hc1 hc2 hc3 hc4]
          simp only [Option.isSome_some, Option.map_some, Option.some.injEq, true_and]
          refine ⟨?_, ?_, ?_, ?_, ?_⟩
          · simp [isHandshakeInitR, h0]
            intro hb hs
            exact absurd ⟨hb, hs⟩ hc1
          · simp [isHandshakeResponseR, h0]
            intro hb hs
            exact absurd ⟨hb, hs⟩ hc2
          · simp [isCookieReplyR, h0]
            intro hb hs
            exact absurd ⟨hb, hs⟩ hc3
          · simp [isTransportDataR, h0]
            intro hb hs1
            by_contra hlt
            exact hc4 ⟨hb, hs1, Nat.lt_of_not_le hlt⟩
          · simp [h0]
            refine ⟨?_, ?_, ?_, ?_⟩
            · intro hb hs
              exact absurd ⟨hb, hs⟩ hc1
            · intro hb hs
              exact absurd ⟨hb, hs⟩ hc2
            · intro hb hs
              exact absurd ⟨hb, hs⟩ hc3
            · intro hb hs1
              by_contra hlt
              exact hc4 ⟨hb, hs1, Nat.lt_of_not_le hlt⟩

/-- C5 witness: the 32-byte transport frame `cTransportData` classifies as
TransportData and as nothing else. -/
theorem c5_witness :
    (wireguardPacketTryFrom cTransportData 32).isSome = true ∧
    (Option.map isHandshakeInitR (wireguardPacketTryFrom cTransportData 32) = some true ↔
      (cTransportData[0]? = some 0x01 ∧ 32 = 148)) ∧
    (Option.map isHandshakeResponseR (wireguardPacketTryFrom cTransportData 32) = some true ↔
      (cTransportData[0]? = some 0x02 ∧ 32 = 92)) ∧
    (Option.map isCookieReplyR (wireguardPacketTryFrom cTransportData 32) = some true ↔
      (cTransportData[0]? = some 0x03 ∧ 32 = 64)) ∧
    (Option.map isTransportDataR (wireguardPacketTryFrom cTransportData 32) = some true ↔
      (cTransportData[0]? = some 0x04 ∧ 32 ≤ 32 ∧ 32 < USIZE_MAX)) ∧
    (wireguardPacketTryFrom cTransportData 32 = some (Except.error Error.invalidPacket) ↔
      ¬ ((cTransportData[0]? = some 0x01 ∧ 32 = 148) ∨
         (cTransportData[0]? = some 0x02 ∧ 32 = 92) ∨
         (cTransportData[0]? = some 0x03 ∧ 32 = 64) ∨
         (cTransportData[0]? = some 0x04 ∧ 32 ≤ 32 ∧ 32 < USIZE_MAX))) :=
  c5_classifier_shape cTransportData 32 (by decide) (by decide)

/-- C6: every datagram the router sends carries exactly the first `size`
bytes of the received datagram, of length `size` — for all four frame kinds
and both directions no payload byte is rewritten, added or removed. -/
theorem c6_transparency (macF : List Nat → List Nat → List Nat) (sessions : SessionTable)
    (size : Nat) (src : SockAddr) (data : List Nat) (peers : List Peer)
    (out : RouterOutput) (hlen : size ≤ data.length)
    (hout : handle_packet macF sessions size src data peers = some out) :
    out.sent.all (fun d => d.payload == data.take size && d.payload.length == size) = true := by
  have hts : (data.take size).length = size := by
    rw [List.length_take]
    omega
  unfold handle_packet at hout
  repeat' split at hout
  all_goals first
    | exact Option.noConfusion hout
    | (injection hout with h; subst h; simp [hts])

/-- C6 witness: the cookie reply forwarded in the pinned state carries the
exact 64 received bytes. -/
theorem c6_witness :
    List.all (RouterOutput.sent ⟨sTablePinned, [⟨cCookieData.take 64, 20⟩], []⟩)
      (fun d => d.payload == cCookieData.take 64 && d.payload.length == 64) = true :=
  c6_transparency macZero sTablePinned 64 30 cCookieData []
    ⟨sTablePinned, [⟨cCookieData.take 64, 20⟩], []⟩ (by decide) (by decide)

/-- C7: the classifier scrutinises `data[0]` before any size check, so on an
empty buffer it performs an out-of-bounds access (a Rust panic, modelled
`none`) for size 0 and likewise for any other size below 5, instead of
rejecting short datagrams with an error first; the `PacketTooShort` error
variant exists in src/error.rs for that purpose but is never produced. -/
theorem c7_empty_buffer_oob :
    wireguardPacketTryFrom [] 0 = none ∧
    wireguardPacketTryFrom [] 4 = none := by
  exact ⟨rfl, rfl⟩

/-- C8: `is_wg_packet size buf` is true iff `size > 4`, the first byte is
one of 1,2,3,4, and each of the three reserved bytes is zero (the source
tests their bitwise or against zero); and whenever it is false the router
returns before touching the classifier: no datagram is sent, the session
table is unchanged and no log is emitted. -/
theorem c8_wg_gate (macF : List Nat → List Nat → List Nat) (sessions : SessionTable)
    (src : SockAddr) (peers : List Peer) (size : Nat) (packet : List Nat) :
    (is_wg_packet size packet = true ↔
      (4 < size ∧
       (packet.getD 0 0 = 1 ∨ packet.getD 0 0 = 2 ∨ packet.getD 0 0 = 3 ∨
        packet.getD 0 0 = 4) ∧
       packet.getD 1 0 = 0 ∧ packet.getD 2 0 = 0 ∧ packet.getD 3 0 = 0)) ∧
    (is_wg_packet size packet = false →
      handle_packet macF sessions size src packet peers = some ⟨sessions, [], []⟩) := by
  constructor
  · unfold is_wg_packet
    simp only [Bool.and_eq_true, decide_eq_true_eq, natLorEqZero]
    constructor
    · rintro ⟨⟨⟨hs, hlo⟩, hhi⟩, ⟨h1, h2⟩, h3⟩
      exact ⟨hs, by omega, h1, h2, h3⟩
    · rintro ⟨hs, hb, h1, h2, h3⟩
      exact ⟨⟨⟨hs, by omega⟩, by omega⟩, ⟨h1, h2⟩, h3⟩
  · intro hf
    unfold handle_packet
    rw [hf]
    simp

/-- C8 witness: the junk datagram of scenario S1 fails the heuristic and is
dropped silently with no state change. -/
theorem c8_witness :
    (is_wg_packet 8 cJunkData = true ↔
      (4 < 8 ∧
       (cJunkData.getD 0 0 = 1 ∨ cJunkData.getD 0 0 = 2 ∨ cJunkData.getD 0 0 = 3 ∨
        cJunkData.getD 0 0 = 4) ∧
       cJunkData.getD 1 0 = 0 ∧ cJunkData.getD 2 0 = 0 ∧ cJunkData.getD 3 0 = 0)) ∧
    handle_packet macZero [] 8 5 cJunkData [] = some ⟨[], [], []⟩ := by
  obtain ⟨h1, h2⟩ := c8_wg_gate macZero [] 5 [] 8 cJunkData
  exact ⟨h1, h2 (by decide)⟩

/-- C9: `Peer::build` does not reject a malformed peer with a ConfigInvalid
error — src/error.rs has no such variant and the constructor returns a bare
`Peer` — it panics: when the address fails to parse, when the key fails to
base64-decode, and when the decoded key is not exactly 32 bytes, the
respective `.unwrap()` aborts (modelled `none`). -/
theorem c9_peer_build_panics :
    Peer.build parseFail b64Fail hashId badAddr shortKey = none ∧
    Peer.build parseOne b64Fail hashId goodAddr badKey = none ∧
    Peer.build parseOne b64Short hashId goodAddr shortKey = none := by
  refine ⟨rfl, rfl, by decide⟩

/-- C10: the session table after `handle_packet` is exactly
`sessionUpdateSpec`: it changes only for a handshake initiation whose sender
has no session and whose MAC1 matches some peer (inserting
`sender -> (src, peer.address)`), or for a handshake response whose receiver
has a session `(c0, _)` (inserting `sender -> (src, c0)`); cookie replies,
transport data, datagrams rejected by the heuristic or the classifier,
initiations with no matching peer, and initiations whose sender already has
an entry (from any source address) leave the table exactly unchanged. -/
theorem c10_session_table_effects (macF : List Nat → List Nat → List Nat)
    (sessions : SessionTable) (size : Nat) (src : SockAddr) (data : List Nat)
    (peers : List Peer) (out : RouterOutput) (hlen : size ≤ data.length)
    (hout : handle_packet macF sessions size src data peers = some out) :
    out.sessions = sessionUpdateSpec macF sessions size src data peers := by
  cases hwgb : is_wg_packet size data with
  | false =>
    unfold handle_packet at hout
    rw [hwgb] at hout
    simp only [Bool.false_eq_true, if_false] at hout
    injection hout with h
    subst h
    unfold sessionUpdateSpec
    rw [hwgb]
    simp
  | true =>
    have hs4 : 4 < size := by
      unfold is_wg_packet at hwgb
      simp only [Bool.and_eq_true, decide_eq_true_eq] at hwgb
      exact hwgb.1.1.1
    obtain ⟨b0, h0⟩ := length_pos_of_size data size hlen (by omega)
    unfold sessionUpdateSpec
    by_cases hc1 : b0 = 0x01 ∧ size = 148
    · obtain ⟨hb, hs⟩ := hc1
      subst hb
      subst hs
      have htf := tryFrom_opcode1 data 148 h0 rfl hlen
      have hsnd : (HandshakeInitiationP.refFromBytes (data.take 148)).sender =
          slice data 4 4 := by
        simp [HandshakeInitiationP.refFromBytes, slice_take data 148 4 4 (by omega)]
      have hmac : (HandshakeInitiationP.refFromBytes (data.take 148)).mac1 =
          slice data 116 16 := by
        simp [HandshakeInitiationP.refFromBytes, slice_take data 148 116 16 (by omega)]
      unfold handle_packet at hout
      rw [htf] at hout
      simp only [hwgb, if_true, hsnd, hmac] at hout
      cases hget : sessionsGet sessions (slice data 4 4) with
      | some e =>
        rw [hget] at hout
        injection hout with h
        subst h
        simp [hwgb, h0, hget]
      | none =>
        rw [hget] at hout
        cases hfind : peers.find? (fun p =>
            macF p.precomputed_hash_label_mac1 (data.take 116) == slice data 116 16) with
        | some b =>
          rw [hfind] at hout
          injection hout with h
          subst h
          simp [hwgb, h0, hget, hfind]
        | none =>
          rw [hfind] at hout
          injection hout with h
          subst h
          simp [hwgb, h0, hget, hfind]
    · by_cases hc2 : b0 = 0x02 ∧ size = 92
      · obtain ⟨hb, hs⟩ := hc2
        subst hb
        subst hs
        have htf := tryFrom_opcode2 data 92 h0 rfl hlen
        have hsnd : (HandshakeResponseP.refFromBytes (data.take 92)).sender =
            slice data 4 4 := by
          simp [HandshakeResponseP.refFromBytes, slice_take data 92 4 4 (by omega)]
        have hrcv : (HandshakeResponseP.refFromBytes (data.take 92)).receiver =
            slice data 8 4 := by
          simp [HandshakeResponseP.refFromBytes, slice_take data 92 8 4 (by omega)]
        unfold handle_packet at hout
        rw [htf] at hout
        simp only [hwgb, if_true, hsnd, hrcv] at hout
        cases hget : sessionsGet sessions (slice data 8 4) with
        | some c =>
          rw [hget] at hout
          injection hout with h
          subst h
          simp [hwgb, h0, hget]
        | none =>
          rw [hget] at hout
          injection hout with h
          subst h
          simp [hwgb, h0, hget]
      · have hC1 : ¬ (is_wg_packet size data = true ∧ data[0]? = some 0x01 ∧ size = 148 ∧
            sessionsGet sessions (slice data 4 4) = none) := by
          rintro ⟨_, hb, hs, _⟩
          rw [h0] at hb
          injection hb with hb2
          exact hc1 ⟨hb2, hs⟩
        have hC2 : ¬ (is_wg_packet size data = true ∧ data[0]? = some 0x02 ∧ size = 92) := by
          rintro ⟨_, hb, hs⟩
          rw [h0] at hb
          injection hb with hb2
          exact hc2 ⟨hb2, hs⟩
        rw [if_neg hC1, if_neg hC2]
        by_cases hc3 : b0 = 0x03 ∧ size = 64
        · obtain ⟨hb, hs⟩ := hc3
          subst hb
          subst hs
          have htf := tryFrom_opcode3 data 64 h0 rfl hlen
          unfold handle_packet at hout
          rw [htf] at hout
          simp only [hwgb, if_true] at hout
          cases hget : sessionsGet sessions
              ((CookieReplyP.refFromBytes (data.take 64)).receiver) with
          | some c =>
            rw [hget] at hout
            injection hout with h
            subst h
            rfl
          | none =>
            rw [hget] at hout
            injection hout with h
            subst h
            rfl
        · by_cases hc4 : b0 = 0x04 ∧ 32 ≤ size ∧ size < USIZE_MAX
          · obtain ⟨hb, hs1, hs2⟩ := hc4
            subst hb
            have htf := tryFrom_opcode4 data size h0 hs1 hs2 hlen
            unfold handle_packet at hout
            rw [htf] at hout
            simp only [hwgb, if_true] at hout
            cases hget : sessionsGet sessions
                ((TransportDataHeaderP.refFromBytes (data.take 16)).receiver) with
            | some c =>
              rw [hget] at hout
              injection hout with h
              subst h
              rfl
            | none =>
              rw [hget] at hout
              injection hout with h
              subst h
              rfl
          · have htf := tryFrom_invalid data size b0 h0 hc1 hc2 hc3 hc4
            unfold handle_packet at hout
            rw [htf] at hout
            simp only [hwgb, if_true] at hout
            injection hout with h
            subst h
            rfl

/-- C10 witness: the cookie reply in the pinned state leaves the session
table exactly unchanged, matching `sessionUpdateSpec`. -/
theorem c10_witness :
    RouterOutput.sessions ⟨sTablePinned, [⟨cCookieData.take 64, 20⟩], []⟩ =
      sessionUpdateSpec macZero sTablePinned 64 30 cCookieData [] :=
  c10_session_table_effects macZero sTablePinned 64 30 cCookieData []
    ⟨sTablePinned, [⟨cCookieData.take 64, 20⟩], []⟩ (by decide) (by decide)

end Wg
